import Mathlib

/-!
Verification of the Kmm soccer market-making core against its specification.

The Python sources under `src/` are shallowly embedded: floats become `ℚ`,
`int(...)` truncation becomes `pytrunc`, Python's `round` (banker's rounding)
becomes `pyround`, Python's `//` becomes `Int.fdiv`, optional values become
`Option`, and the mutable EWMA / risk / state-machine state is passed
explicitly.
-/

namespace Kmm

/-- Python `int(x)`: truncation toward zero of a rational. -/
def pytrunc (q : ℚ) : ℤ :=
  if 0 ≤ q then ⌊q⌋ else -⌊-q⌋

/-- Python `round(x)` (no digits): round half to even, returning an integer. -/
def pyround (q : ℚ) : ℤ :=
  let f : ℤ := ⌊q⌋
  let r : ℚ := q - f
  if r < 1/2 then f
  else if 1/2 < r then f + 1
  else if f % 2 = 0 then f else f + 1

/-- Python truthiness of an optional number (`if x:`): false for `None` and `0`. -/
def truthy (x : Option ℚ) : Bool :=
  match x with
  | none => false
  | some v => v ≠ 0

/-- Python truthiness of an optional integer (`if x:`). -/
def truthyInt (x : Option ℤ) : Bool :=
  match x with
  | none => false
  | some v => v ≠ 0

/-! ## Fee model (`src/src/core/fee_model.py`) -/

/-- The `kalshi_fee_cents(price, contracts)`: conservative taker-fee estimate. -/
def kalshi_fee_cents (price contracts : ℤ) : ℤ :=
  let notional_cents := price * contracts
  let fee_cents := pytrunc ((notional_cents : ℚ) * (1/10))
  let min_fee_cents := max 10 contracts
  max fee_cents min_fee_cents

/-- The `fee_buffer_probability(price)`: fee buffer used to widen quoted spreads. -/
def fee_buffer_probability (price : ℤ) : ℚ :=
  let fee_per_contract_cents := kalshi_fee_cents price 1
  let fee_per_contract : ℚ := (fee_per_contract_cents : ℚ) / 100
  let fee_buffer := max (1/100) (2 * fee_per_contract)
  min (1/10) fee_buffer

/-! ## Fair price calculator (`src/src/core/fair_price.py`) -/

/-- Constructor parameters of `FairPriceCalculator`. -/
structure FairConfig where
  w_poly_base_prematch : ℚ
  w_poly_base_inplay : ℚ
  poly_spread_narrow_threshold : ℚ
  poly_spread_wide_threshold : ℚ
  poly_spread_narrow_bonus : ℚ
  poly_spread_wide_penalty : ℚ
  shock_score_threshold : ℚ

/-- Default constructor arguments of `FairPriceCalculator.__init__`. -/
def defaultFairConfig : FairConfig :=
  { w_poly_base_prematch := 70/100
    w_poly_base_inplay := 85/100
    poly_spread_narrow_threshold := 2/100
    poly_spread_wide_threshold := 6/100
    poly_spread_narrow_bonus := 5/100
    poly_spread_wide_penalty := 10/100
    shock_score_threshold := 3 }

/-- The `self._alpha = 0.1`, the fixed EWMA decay factor. -/
def ewma_alpha : ℚ := 1/10

/-- The `FairPriceInputs` dataclass. -/
structure FairPriceInputs where
  poly_mid : Option ℚ
  poly_spread : Option ℚ
  poly_stale : Bool
  poly_depth_strong : Bool
  kalshi_mid : Option ℚ
  kalshi_spread : Option ℚ
  kalshi_stale : Bool
  match_phase : String
  timestamp_ms : ℤ

/-- The `FairPriceOutput` dataclass. -/
structure FairPriceOutput where
  fair : ℚ
  w_poly : ℚ
  shock_score : ℚ
  is_shocked : Bool
  timestamp_ms : ℤ

/-- The mutable EWMA fields `_poly_mid_ewma` / `_poly_vol_ewma` of
`FairPriceCalculator`, made explicit. -/
structure EwmaState where
  poly_mid_ewma : Option ℚ
  poly_vol_ewma : Option ℚ

/-- The `FairPriceCalculator._calculate_weight`. -/
def calculate_weight (cfg : FairConfig) (inputs : FairPriceInputs) : ℚ :=
  let w_poly :=
    if inputs.match_phase = "INPLAY" then cfg.w_poly_base_inplay
    else cfg.w_poly_base_prematch
  if inputs.poly_stale then 0
  else
    let w_poly :=
      match inputs.poly_spread with
      | none => w_poly
      | some s =>
        if s ≤ cfg.poly_spread_narrow_threshold ∧ inputs.poly_depth_strong then
          w_poly + cfg.poly_spread_narrow_bonus
        else if s ≥ cfg.poly_spread_wide_threshold then
          w_poly - cfg.poly_spread_wide_penalty
        else w_poly
    max 0 (min (95/100) w_poly)

/-- The `FairPriceCalculator._calculate_fair`. -/
def calculate_fair (inputs : FairPriceInputs) (w_poly : ℚ) : ℚ :=
  match inputs.poly_mid with
  | none =>
    match inputs.kalshi_mid with
    | none => 50/100
    | some km => km
  | some pm =>
    if w_poly = 0 then
      match inputs.kalshi_mid with
      | none => 50/100
      | some km => km
    else
      match inputs.kalshi_mid with
      | none => pm
      | some km =>
        let fair := w_poly * pm + (1 - w_poly) * km
        max (1/100) (min (99/100) fair)

/-- The `FairPriceCalculator._detect_shock`, with the mutable EWMA state passed
explicitly; returns `(shock_score, is_shocked)` and the updated state. -/
def detect_shock (cfg : FairConfig) (poly_mid_in : Option ℚ) (st : EwmaState) :
    (ℚ × Bool) × EwmaState :=
  match poly_mid_in with
  | none => ((0, false), st)
  | some poly_mid =>
    match st.poly_mid_ewma with
    | none => ((0, false), ⟨some poly_mid, some (1/100)⟩)
    | some mid_ewma =>
      let change := |poly_mid - mid_ewma|
      let mid_ewma' := ewma_alpha * poly_mid + (1 - ewma_alpha) * mid_ewma
      let vol_ewma' := ewma_alpha * change + (1 - ewma_alpha) * (st.poly_vol_ewma.getD 0)
      let vol := max (1/100) vol_ewma'
      let shock_score := change / vol
      let is_shocked : Bool := shock_score ≥ cfg.shock_score_threshold
      ((shock_score, is_shocked), ⟨some mid_ewma', some vol_ewma'⟩)

/-- The `FairPriceCalculator.calculate`: weight, fused fair, shock detection. -/
def fair_calculate (cfg : FairConfig) (inputs : FairPriceInputs) (st : EwmaState) :
    FairPriceOutput × EwmaState :=
  let w_poly := calculate_weight cfg inputs
  let fair := calculate_fair inputs w_poly
  let shock := detect_shock cfg inputs.poly_mid st
  (⟨fair, w_poly, shock.1.1, shock.1.2, inputs.timestamp_ms⟩, shock.2)

/-! ## Market snapshot and data store (`src/src/core/market_data_store.py`) -/

/-- The `MarketSnapshot` dataclass (the unused `data_staleness_flags` dict and
`market_id` string carry no verified content and are kept as plain fields). -/
structure MarketSnapshot where
  timestamp_ms : ℤ
  market_id : String
  kalshi_best_bid_price : Option ℚ
  kalshi_best_bid_size : Option ℤ
  kalshi_best_ask_price : Option ℚ
  kalshi_best_ask_size : Option ℤ
  kalshi_mid : Option ℚ
  kalshi_last_trade_price : Option ℚ
  kalshi_stale : Bool := false
  polymarket_best_bid : Option ℚ := none
  polymarket_best_ask : Option ℚ := none
  polymarket_mid : Option ℚ := none
  polymarket_spread : Option ℚ := none
  polymarket_top_depth_bid : Option ℚ := none
  polymarket_top_depth_ask : Option ℚ := none
  polymarket_stale : Bool := false

/-- Modelled from the spec: `TopOfBook` comes from `kalshi_trader.types`,
which is not under `src/`; the spec's venue-A feed pushes
`(bestBidPriceTicks, bestBidSize, bestAskPriceTicks, bestAskSize)` as
integers, accessed in `update_kalshi` with Python truthiness. -/
structure TopOfBook where
  yes_best_price : ℤ
  yes_best_qty : ℤ
  no_best_price : ℤ
  no_best_qty : ℤ

/-- The `PolymarketTokenData` dataclass (`src/src/clients/polymarket_client.py`). -/
structure PolymarketTokenData where
  token_id : String
  best_bid : Option ℚ
  best_ask : Option ℚ
  best_bid_size : Option ℚ
  best_ask_size : Option ℚ
  last_price : Option ℚ
  timestamp_ms : ℤ

/-- Constructor parameters of `MarketDataStore`. -/
structure StoreConfig where
  stale_seconds_prematch : ℤ := 10
  stale_seconds_inplay : ℤ := 3

/-- The `MarketDataStore._is_stale`. -/
def is_stale (cfg : StoreConfig) (now_ms data_ts_ms : ℤ) (match_phase : String) : Bool :=
  let stale_seconds : ℤ :=
    if match_phase = "INPLAY" then cfg.stale_seconds_inplay else cfg.stale_seconds_prematch
  let age_seconds : ℚ := ((now_ms - data_ts_ms : ℤ) : ℚ) / 1000
  age_seconds > (stale_seconds : ℚ)

/-- The `MarketDataStore.update_kalshi`, acting on the (looked-up or fresh)
snapshot for the market; `now_ms` is `current_epoch_ms()`. -/
def update_kalshi (cfg : StoreConfig) (snapshot : MarketSnapshot)
    (tob : Option TopOfBook) (match_phase : String) (now_ms : ℤ) : MarketSnapshot :=
  match tob with
  | some t =>
    let bid : Option ℚ := if t.yes_best_price ≠ 0 then some ((t.yes_best_price : ℚ) / 100) else none
    let bid_size : Option ℤ := if t.yes_best_qty ≠ 0 then some t.yes_best_qty else none
    let ask : Option ℚ := if t.no_best_price ≠ 0 then some ((t.no_best_price : ℚ) / 100) else none
    let ask_size : Option ℤ := if t.no_best_qty ≠ 0 then some t.no_best_qty else none
    let mid : Option ℚ :=
      if truthy bid ∧ truthy ask then some ((bid.getD 0 + ask.getD 0) / 2)
      else if truthy bid then bid
      else if truthy ask then ask
      else none
    { snapshot with
        kalshi_best_bid_price := bid
        kalshi_best_bid_size := bid_size
        kalshi_best_ask_price := ask
        kalshi_best_ask_size := ask_size
        kalshi_mid := mid
        timestamp_ms := now_ms
        kalshi_stale := false }
  | none =>
    { snapshot with kalshi_stale := is_stale cfg now_ms snapshot.timestamp_ms match_phase }

/-- The `MarketDataStore.update_polymarket`, acting on the snapshot for the
market. `token` is `poly_data.tokens[token_id]` when `poly_data` is present
and holds the token id, else `none`; `poly_ts_ms` is `poly_data.timestamp_ms`. -/
def update_polymarket (cfg : StoreConfig) (snapshot : MarketSnapshot)
    (token : Option PolymarketTokenData) (poly_ts_ms : ℤ)
    (match_phase : String) (now_ms : ℤ) : MarketSnapshot :=
  match token with
  | some tk =>
    let mid : Option ℚ :=
      match tk.best_bid, tk.best_ask with
      | some b, some a => some ((b + a) / 2)
      | some b, none => some b
      | none, some a => some a
      | none, none => none
    let spread : Option ℚ :=
      match tk.best_bid, tk.best_ask with
      | some b, some a => some (a - b)
      | _, _ => none
    { snapshot with
        polymarket_best_bid := tk.best_bid
        polymarket_best_ask := tk.best_ask
        polymarket_top_depth_bid := tk.best_bid_size
        polymarket_top_depth_ask := tk.best_ask_size
        polymarket_mid := mid
        polymarket_spread := spread
        timestamp_ms := max snapshot.timestamp_ms poly_ts_ms
        polymarket_stale := false }
  | none =>
    { snapshot with polymarket_stale := is_stale cfg now_ms snapshot.timestamp_ms match_phase }

/-! ## Quoting engine (`src/src/core/quoting.py`) -/

/-- The `Quote` dataclass. -/
structure Quote where
  price : ℤ
  qty : ℤ
deriving DecidableEq

/-- The `QuotingOutput` dataclass. -/
structure QuotingOutput where
  bid : Option Quote
  ask : Option Quote
  reason : String := ""

/-- Constructor parameters of `QuotingEngine` after the demo/live selection
done in `__init__` (`_max_order_notional`, `_max_contracts_per_order`). -/
structure QuotingConfig where
  base_half_spread_prematch : ℚ
  base_half_spread_inplay : ℚ
  adv_buffer_prematch : ℚ
  adv_buffer_inplay : ℚ
  adv_buffer_shock : ℚ
  max_order_notional : ℚ
  max_contracts_per_order : ℤ
  max_size_vs_depth_ratio : ℚ

/-- Default `QuotingEngine` parameters with `is_demo = True`. -/
def demoQuotingConfig : QuotingConfig :=
  { base_half_spread_prematch := 3/100
    base_half_spread_inplay := 6/100
    adv_buffer_prematch := 1/100
    adv_buffer_inplay := 3/100
    adv_buffer_shock := 2/100
    max_order_notional := 3
    max_contracts_per_order := 25
    max_size_vs_depth_ratio := 25/100 }

/-- The `QuotingEngine._prob_to_ticks`: probability to ticks, clamped to 1–99. -/
def prob_to_ticks (prob : ℚ) : ℤ :=
  max 1 (min 99 (pyround (prob * 100)))

/-- The `QuotingEngine._calculate_half_spread`. -/
def calculate_half_spread (cfg : QuotingConfig) (fair_output : FairPriceOutput)
    (match_phase : String) : ℚ :=
  let base :=
    if match_phase = "INPLAY" then (cfg.base_half_spread_inplay, cfg.adv_buffer_inplay)
    else (cfg.base_half_spread_prematch, cfg.adv_buffer_prematch)
  let half_spread := base.1 + base.2
  let half_spread :=
    if fair_output.shock_score > 1 then half_spread + cfg.adv_buffer_shock else half_spread
  let fair_ticks := prob_to_ticks fair_output.fair
  half_spread + fee_buffer_probability fair_ticks

/-- The `QuotingEngine._calculate_size`. -/
def calculate_size (cfg : QuotingConfig) (price_ticks : ℤ) (visible_depth : Option ℤ) : ℤ :=
  let price_prob : ℚ := (price_ticks : ℚ) / 100
  let max_contracts_notional := pytrunc (cfg.max_order_notional / max (1/100) price_prob)
  let max_contracts := min max_contracts_notional cfg.max_contracts_per_order
  let max_contracts :=
    if truthyInt visible_depth then
      min max_contracts (max 1 (pytrunc ((visible_depth.getD 0 : ℚ) * cfg.max_size_vs_depth_ratio)))
    else max_contracts
  max 1 max_contracts

/-- The `QuotingEngine.calculate_quotes` (the `current_bid_price` /
`current_ask_price` arguments are accepted, and unused, as in the source). -/
def calculate_quotes (cfg : QuotingConfig) (fair_output : FairPriceOutput)
    (snapshot : MarketSnapshot) (match_phase : String)
    (current_bid_price current_ask_price : Option ℤ) : QuotingOutput :=
  if fair_output.is_shocked then ⟨none, none, "shock_detected"⟩
  else if snapshot.kalshi_stale ∧ snapshot.polymarket_stale then ⟨none, none, "data_stale"⟩
  else
    let half_spread := calculate_half_spread cfg fair_output match_phase
    let fair_prob := fair_output.fair
    let bid_prob := fair_prob - half_spread
    let ask_prob := fair_prob + half_spread
    let bid_ticks := prob_to_ticks bid_prob
    let ask_ticks := prob_to_ticks ask_prob
    let bid_ticks :=
      if truthy snapshot.kalshi_best_ask_price then
        let best_ask_ticks := prob_to_ticks (snapshot.kalshi_best_ask_price.getD 0)
        if bid_ticks ≥ best_ask_ticks then max 1 (best_ask_ticks - 1) else bid_ticks
      else bid_ticks
    let ask_ticks :=
      if truthy snapshot.kalshi_best_bid_price then
        let best_bid_ticks := prob_to_ticks (snapshot.kalshi_best_bid_price.getD 0)
        if ask_ticks ≤ best_bid_ticks then min 99 (best_bid_ticks + 1) else ask_ticks
      else ask_ticks
    let widened :=
      if bid_ticks ≥ ask_ticks - 2 then
        let mid_ticks := Int.fdiv (bid_ticks + ask_ticks) 2
        (max 1 (mid_ticks - pytrunc (half_spread * 100)),
         min 99 (mid_ticks + pytrunc (half_spread * 100)))
      else (bid_ticks, ask_ticks)
    let bid_ticks := widened.1
    let ask_ticks := widened.2
    let bid_qty := calculate_size cfg bid_ticks snapshot.kalshi_best_bid_size
    let ask_qty := calculate_size cfg ask_ticks snapshot.kalshi_best_ask_size
    let bid : Option Quote :=
      if bid_ticks < 1 ∨ bid_ticks > 98 ∨ bid_qty < 1 then none
      else some ⟨bid_ticks, bid_qty⟩
    let ask : Option Quote :=
      if ask_ticks < 2 ∨ ask_ticks > 99 ∨ ask_qty < 1 then none
      else some ⟨ask_ticks, ask_qty⟩
    ⟨bid, ask, "ok"⟩

/-! ## Risk manager (`src/src/core/risk_manager.py`) -/

/-- Constructor parameters of `RiskManager` after the demo/live selection. -/
structure RiskConfig where
  max_position_notional : ℚ
  max_total_notional : ℚ
  max_filled_notional_per_minute : ℚ
  drawdown_limit : ℚ

/-- Default `RiskManager` parameters with `is_demo = True`. -/
def demoRiskConfig : RiskConfig :=
  { max_position_notional := 25
    max_total_notional := 125
    max_filled_notional_per_minute := 20
    drawdown_limit := 50 }

/-- Result of `check_fill_rate`: `(is_ok, pause_seconds)` (the human-readable
reason string carries no further data). -/
structure FillRateResult where
  is_ok : Bool
  pause_seconds : ℤ
deriving DecidableEq

/-- The `RiskManager.check_fill_rate` for one market: the stored
`fill_notional_by_market[market_id]` list of `(timestamp_ms, notional)` pairs
is passed in and the updated list is returned; `now_ms` is
`current_epoch_ms()`. -/
def check_fill_rate (cfg : RiskConfig) (fills : List (ℤ × ℚ))
    (now_ms : ℤ) (fill_notional : ℚ) : FillRateResult × List (ℤ × ℚ) :=
  let one_minute_ago_ms := now_ms - 60000
  let cleaned := fills.filter (fun p => one_minute_ago_ms < p.1)
  let updated := cleaned ++ [(now_ms, fill_notional)]
  let total_minute := (updated.map Prod.snd).sum
  if total_minute ≥ cfg.max_filled_notional_per_minute then (⟨false, 120⟩, updated)
  else (⟨true, 0⟩, updated)

/-- The `RiskManager.check_drawdown`: returns `is_ok`; the method reads only the
configured drawdown limit and writes no risk state. -/
def check_drawdown (cfg : RiskConfig) (realized_pnl_cents unrealized_pnl_cents : ℤ) : Bool :=
  let total_pnl_cents := realized_pnl_cents + unrealized_pnl_cents
  let drawdown_cents := |min 0 total_pnl_cents|
  let drawdown_limit_cents := pytrunc (cfg.drawdown_limit * 100)
  ¬ (drawdown_cents ≥ drawdown_limit_cents)

/-! ## Lifecycle state machine (`src/src/models/state_machine.py`) -/

/-- The `MarketState` enum. -/
inductive MarketState where
  | INIT
  | WAIT_DATA
  | QUOTING
  | PAUSED
  | FLATTENING
  | DONE
deriving DecidableEq

/-- The `MatchPhase` (`src/src/models/match_phase.py`). -/
inductive MatchPhase where
  | PREMATCH
  | INPLAY
  | STOP_QUOTING
deriving DecidableEq

/-- The `MatchPhase` string value, as passed to the calculators. -/
def MatchPhase.value : MatchPhase → String
  | .PREMATCH => "PREMATCH"
  | .INPLAY => "INPLAY"
  | .STOP_QUOTING => "STOP_QUOTING"

/-- The `MarketStateMachine` dataclass. -/
structure MarketStateMachine where
  market_id : String
  state : MarketState := .INIT
  state_entered_ts_ms : ℤ
  pause_until_ts_ms : Option ℤ := none
  warmup_start_ts_ms : Option ℤ := none

/-- The `MarketStateMachine.transition_to`; `now_ms` is `current_epoch_ms()`. -/
def transition_to (sm : MarketStateMachine) (new_state : MarketState)
    (now_ms : ℤ) : MarketStateMachine :=
  if sm.state = new_state then sm
  else { sm with state := new_state, state_entered_ts_ms := now_ms }

/-- The `MarketStateMachine.set_pause_until`. -/
def set_pause_until (sm : MarketStateMachine) (pause_seconds : ℤ)
    (now_ms : ℤ) : MarketStateMachine :=
  transition_to { sm with pause_until_ts_ms := some (now_ms + pause_seconds * 1000) }
    MarketState.PAUSED now_ms

/-- The `MarketStateMachine.can_exit_pause`. -/
def can_exit_pause (sm : MarketStateMachine) (now_ms : ℤ) : Bool :=
  if sm.state ≠ MarketState.PAUSED then false
  else
    match sm.pause_until_ts_ms with
    | none => true
    | some t => now_ms ≥ t

/-- The `MarketStateMachine.start_warmup`. -/
def start_warmup (sm : MarketStateMachine) (now_ms : ℤ) : MarketStateMachine :=
  match sm.warmup_start_ts_ms with
  | none => { sm with warmup_start_ts_ms := some now_ms }
  | some _ => sm

/-- The `MarketStateMachine.is_warmup_complete`. -/
def is_warmup_complete (sm : MarketStateMachine) (warmup_seconds : ℤ)
    (now_ms : ℤ) : Bool :=
  match sm.warmup_start_ts_ms with
  | none => false
  | some start => ((now_ms - start : ℤ) : ℚ) / 1000 ≥ (warmup_seconds : ℚ)

/-! ## Strategy orchestration (`src/src/soccer_strategy.py`) -/

/-- The `SoccerMarketMakerStrategy._update_state_machine`; `risk_paused` is
`self._risk_manager.is_paused(context.config.id)` and `warmup_seconds` is
`self._config.params.warmup_seconds`. -/
def update_state_machine (sm : MarketStateMachine) (snapshot : MarketSnapshot)
    (match_phase : MatchPhase) (warmup_seconds : ℤ) (risk_paused : Bool)
    (now_ms : ℤ) : MarketStateMachine :=
  if match_phase = MatchPhase.STOP_QUOTING then
    if sm.state ≠ MarketState.DONE then transition_to sm MarketState.DONE now_ms else sm
  else
    match sm.state with
    | .INIT => start_warmup (transition_to sm MarketState.WAIT_DATA now_ms) now_ms
    | .WAIT_DATA =>
      let has_kalshi := ¬ snapshot.kalshi_stale ∧ snapshot.kalshi_mid.isSome
      let has_poly := ¬ snapshot.polymarket_stale ∧ snapshot.polymarket_mid.isSome
      if has_kalshi ∧ has_poly then
        if is_warmup_complete sm warmup_seconds now_ms then
          if ¬ risk_paused then transition_to sm MarketState.QUOTING now_ms else sm
        else sm
      else { sm with warmup_start_ts_ms := none }
    | .QUOTING =>
      if snapshot.kalshi_stale ∧ snapshot.polymarket_stale then
        transition_to sm MarketState.PAUSED now_ms
      else if risk_paused then transition_to sm MarketState.PAUSED now_ms
      else sm
    | .PAUSED =>
      if can_exit_pause sm now_ms then
        let has_kalshi := ¬ snapshot.kalshi_stale ∧ snapshot.kalshi_mid.isSome
        let has_poly := ¬ snapshot.polymarket_stale ∧ snapshot.polymarket_mid.isSome
        if has_kalshi ∧ has_poly ∧ match_phase ≠ MatchPhase.STOP_QUOTING then
          if ¬ risk_paused then transition_to sm MarketState.QUOTING now_ms else sm
        else sm
      else sm
    | .FLATTENING => sm
    | .DONE => sm

/-- The state-machine effect of one `on_market_event` call:
`_update_state_machine`, then — only when the resulting state is `QUOTING` —
`_calculate_quotes`, whose shock branch calls
`set_pause_until(pause_seconds_shock)`. -/
def event_step (sm : MarketStateMachine) (snapshot : MarketSnapshot)
    (match_phase : MatchPhase) (warmup_seconds : ℤ) (risk_paused : Bool)
    (is_shocked : Bool) (pause_seconds_shock : ℤ) (now_ms : ℤ) : MarketStateMachine :=
  let sm := update_state_machine sm snapshot match_phase warmup_seconds risk_paused now_ms
  if sm.state = MarketState.QUOTING ∧ is_shocked then
    set_pause_until sm pause_seconds_shock now_ms
  else sm

/-- The single `FairPriceCalculator` owned by `SoccerMarketMakerStrategy`
(`self._fair_calculator`) processing a sequence of per-event venue-B mids:
every evaluation, whichever event it is for, reads and writes the same
`EwmaState`. Returns the shock outputs tagged with their event ids. -/
def run_shared_ewma (cfg : FairConfig) (obs : List (String × ℚ)) (st : EwmaState) :
    List (String × ℚ × Bool) :=
  match obs with
  | [] => []
  | (event, mid) :: rest =>
    let r := detect_shock cfg (some mid) st
    (event, r.1) :: run_shared_ewma cfg rest r.2

/-- The shock outputs that a given event's evaluations produced. -/
def shocks_for (event : String) (out : List (String × ℚ × Bool)) : List (ℚ × Bool) :=
  (out.filter (fun p => p.1 = event)).map Prod.snd

/-- The venue-B mids observed for a given event, in order. -/
def mids_for (event : String) (obs : List (String × ℚ)) : List ℚ :=
  (obs.filter (fun p => p.1 = event)).map Prod.snd

/-- Repeated `_detect_shock` on a constant venue-B mid: the calculator state
after `n` observations of `m`, starting from the fresh state. -/
def detect_shock_iter (cfg : FairConfig) (m : ℚ) : ℕ → EwmaState
  | 0 => ⟨none, none⟩
  | n + 1 => (detect_shock cfg (some m) (detect_shock_iter cfg m n)).2

/-! ## Concrete inputs used by the evaluation theorems -/

/-- A snapshot with both venues fresh and a resting Kalshi ask at one tick
(price 0.01, within the documented 0.01–0.99 range). -/
def oneTickAskSnapshot : MarketSnapshot :=
  { timestamp_ms := 0
    market_id := "m"
    kalshi_best_bid_price := none
    kalshi_best_bid_size := none
    kalshi_best_ask_price := some (1/100)
    kalshi_best_ask_size := none
    kalshi_mid := none
    kalshi_last_trade_price := none }

/-- A fair-price result at probability 0.50 with no shock. -/
def halfFairOutput : FairPriceOutput :=
  { fair := 1/2, w_poly := 7/10, shock_score := 0, is_shocked := false, timestamp_ms := 0 }

/-- Fair-price inputs with only a Polymarket mid, at the top of its
documented 0.0–1.0 range, and fresh data. -/
def polyOnlyInputs : FairPriceInputs :=
  { poly_mid := some 1, poly_spread := none, poly_stale := false, poly_depth_strong := false
    kalshi_mid := none, kalshi_spread := none, kalshi_stale := false
    match_phase := "PREMATCH", timestamp_ms := 0 }

/-- A snapshot with no data yet (all fields absent, timestamp 0). -/
def emptySnapshot : MarketSnapshot :=
  { timestamp_ms := 0
    market_id := "m"
    kalshi_best_bid_price := none
    kalshi_best_bid_size := none
    kalshi_best_ask_price := none
    kalshi_best_ask_size := none
    kalshi_mid := none
    kalshi_last_trade_price := none }

/-- A venue-A top of book: bid 50 ticks x 10, ask 52 ticks x 10. -/
def sampleTob : TopOfBook := ⟨50, 10, 52, 10⟩

/-- A state machine resting in the terminal `DONE` state. -/
def doneStateMachine : MarketStateMachine :=
  { market_id := "m", state := .DONE, state_entered_ts_ms := 0 }

/-! ## Helper lemmas -/

lemma prematch_ne_inplay : (("PREMATCH" : String) = "INPLAY") = False := by decide

lemma one_le_max_one (x : ℤ) : 1 ≤ max 1 x := le_max_left 1 x

lemma max_one_min_absorb (x y : ℤ) : max 1 (min x (max 1 y)) = max 1 (min x y) := by
  omega

/-! ## Claim theorems -/

/-- Claim C4. `DONE` is terminal: for any snapshot, match phase, warmup
configuration, risk-pause status and shock outcome, one full
`on_market_event` step (`_update_state_machine` followed by the shock-pause
path of `_calculate_quotes`) leaves an event whose state is `DONE` in `DONE`. -/
theorem done_state_terminal (sm : MarketStateMachine) (snapshot : MarketSnapshot)
    (match_phase : MatchPhase) (warmup_seconds : ℤ) (risk_paused is_shocked : Bool)
    (pause_seconds_shock now_ms : ℤ) (h : sm.state = MarketState.DONE) :
    (event_step sm snapshot match_phase warmup_seconds risk_paused is_shocked
      pause_seconds_shock now_ms).state = MarketState.DONE := by
  unfold event_step update_state_machine
  by_cases hp : match_phase = MatchPhase.STOP_QUOTING <;>
    simp [hp, h, transition_to, set_pause_until]

/-- Witness for C4 at a concrete `DONE` machine and concrete inputs. -/
theorem done_state_terminal_witness :
    (event_step doneStateMachine emptySnapshot MatchPhase.INPLAY 60 false true
      30 5000).state = MarketState.DONE :=
  done_state_terminal doneStateMachine emptySnapshot MatchPhase.INPLAY 60 false true
    30 5000 rfl

/-- Claim C5, counterexample. The snapshot carries a single shared
`timestamp_ms`, so a Kalshi update *does* change the timestamp against which
Polymarket staleness is computed: starting from a snapshot last stamped at
t=0, a Kalshi book update at t=100000 ms makes a subsequent data-less
Polymarket update at t=105000 ms (PREMATCH staleness threshold 10 s) report
fresh, whereas without the Kalshi update the same Polymarket update reports
stale. This refutes "an update for one venue never changes the timestamp
against which the other venue's staleness is computed". -/
theorem kalshi_update_shifts_poly_staleness :
    (update_polymarket {} (update_kalshi {} emptySnapshot (some sampleTob) "PREMATCH" 100000)
      none 0 "PREMATCH" 105000).polymarket_stale = false
    ∧ (update_polymarket {} emptySnapshot none 0 "PREMATCH" 105000).polymarket_stale = true := by
  constructor <;>
    norm_num [update_polymarket, update_kalshi, is_stale, emptySnapshot, sampleTob,
      truthy, prematch_ne_inplay]

/-- Claim C5, amended. Each update touches only its own venue's market-data
field group and staleness flag — `update_kalshi` never changes any
Polymarket field or `polymarket_stale`, `update_polymarket` never changes
any Kalshi field or `kalshi_stale`, and each update with fresh venue data
clears exactly its own staleness flag — but the two venues share the single
snapshot `timestamp_ms`, which either update may move. -/
theorem update_frame_conditions (cfg : StoreConfig) (snapshot : MarketSnapshot)
    (tob : Option TopOfBook) (t : TopOfBook) (token : Option PolymarketTokenData)
    (tk : PolymarketTokenData) (poly_ts_ms : ℤ) (phase phase' : String) (now now' : ℤ) :
    (update_kalshi cfg snapshot tob phase now).polymarket_best_bid = snapshot.polymarket_best_bid
    ∧ (update_kalshi cfg snapshot tob phase now).polymarket_best_ask = snapshot.polymarket_best_ask
    ∧ (update_kalshi cfg snapshot tob phase now).polymarket_mid = snapshot.polymarket_mid
    ∧ (update_kalshi cfg snapshot tob phase now).polymarket_spread = snapshot.polymarket_spread
    ∧ (update_kalshi cfg snapshot tob phase now).polymarket_top_depth_bid
        = snapshot.polymarket_top_depth_bid
    ∧ (update_kalshi cfg snapshot tob phase now).polymarket_top_depth_ask
        = snapshot.polymarket_top_depth_ask
    ∧ (update_kalshi cfg snapshot tob phase now).polymarket_stale = snapshot.polymarket_stale
    ∧ (update_kalshi cfg snapshot (some t) phase now).kalshi_stale = false
    ∧ (update_polymarket cfg snapshot token poly_ts_ms phase' now').kalshi_best_bid_price
        = snapshot.kalshi_best_bid_price
    ∧ (update_polymarket cfg snapshot token poly_ts_ms phase' now').kalshi_best_bid_size
        = snapshot.kalshi_best_bid_size
    ∧ (update_polymarket cfg snapshot token poly_ts_ms phase' now').kalshi_best_ask_price
        = snapshot.kalshi_best_ask_price
    ∧ (update_polymarket cfg snapshot token poly_ts_ms phase' now').kalshi_best_ask_size
        = snapshot.kalshi_best_ask_size
    ∧ (update_polymarket cfg snapshot token poly_ts_ms phase' now').kalshi_mid
        = snapshot.kalshi_mid
    ∧ (update_polymarket cfg snapshot token poly_ts_ms phase' now').kalshi_stale
        = snapshot.kalshi_stale
    ∧ (update_polymarket cfg snapshot (some tk) poly_ts_ms phase' now').polymarket_stale
        = false := by
  refine ⟨?_, ?_, ?_, ?_, ?_, ?_, ?_, ?_, ?_, ?_, ?_, ?_, ?_, ?_, ?_⟩ <;>
    first
      | (cases tob <;> simp [update_kalshi])
      | (cases token <;> simp [update_polymarket])

/-- Claim C10. With a positive configured drawdown limit (in cents, as the
code computes it), `check_drawdown` reports not-ok exactly when realized
plus unrealized PnL is at most minus the limit; any combined PnL strictly
above the negative limit passes, and in particular net-nonnegative PnL
always passes, however the loss splits between realized and unrealized.
The method reads only the configured limit and writes no risk state. -/
theorem drawdown_threshold_iff (cfg : RiskConfig) (r u : ℤ)
    (hL : 0 < pytrunc (cfg.drawdown_limit * 100)) :
    (check_drawdown cfg r u = false ↔ r + u ≤ -(pytrunc (cfg.drawdown_limit * 100)))
    ∧ (-(pytrunc (cfg.drawdown_limit * 100)) < r + u → check_drawdown cfg r u = true)
    ∧ (0 ≤ r + u → check_drawdown cfg r u = true) := by
  simp only [check_drawdown, ge_iff_le, decide_eq_false_iff_not, not_not, decide_eq_true_eq]
  rw [abs_of_nonpos (min_le_left 0 (r + u))]
  refine ⟨⟨fun h => ?_, fun h => ?_⟩, fun h => ?_, fun h => ?_⟩ <;> omega

/-- Witness for C10 at the demo limit ($50 → 5000 cents): a −$30 realized
and −$25 unrealized PnL breach the limit. -/
theorem drawdown_threshold_iff_witness :
    (0 : ℤ) < pytrunc (demoRiskConfig.drawdown_limit * 100)
    ∧ ((check_drawdown demoRiskConfig (-3000) (-2500) = false
        ↔ (-3000 : ℤ) + -2500 ≤ -(pytrunc (demoRiskConfig.drawdown_limit * 100)))
      ∧ (-(pytrunc (demoRiskConfig.drawdown_limit * 100)) < (-3000 : ℤ) + -2500
          → check_drawdown demoRiskConfig (-3000) (-2500) = true)
      ∧ ((0 : ℤ) ≤ -3000 + -2500 → check_drawdown demoRiskConfig (-3000) (-2500) = true)) :=
  ⟨by norm_num [pytrunc, demoRiskConfig],
   drawdown_threshold_iff demoRiskConfig (-3000) (-2500)
     (by norm_num [pytrunc, demoRiskConfig])⟩

/-- Claim C6. The Polymarket weight is exactly 0 whenever Polymarket is stale;
it always lies in [0, 0.95]; and with a nonnegative wide-spread penalty it
is monotone non-increasing in the Polymarket spread over spreads strictly
beyond the narrow threshold, all other inputs held fixed. -/
theorem weight_stale_bounds_monotone (cfg : FairConfig) (i : FairPriceInputs) (s1 s2 : ℚ)
    (hpen : 0 ≤ cfg.poly_spread_wide_penalty)
    (hn : cfg.poly_spread_narrow_threshold < s1) (h12 : s1 ≤ s2) :
    calculate_weight cfg { i with poly_stale := true } = 0
    ∧ (0 ≤ calculate_weight cfg i ∧ calculate_weight cfg i ≤ 95/100)
    ∧ calculate_weight cfg { i with poly_spread := some s2 }
        ≤ calculate_weight cfg { i with poly_spread := some s1 } := by
  have h1 : ¬ (s1 ≤ cfg.poly_spread_narrow_threshold) := not_le.mpr hn
  have h2 : ¬ (s2 ≤ cfg.poly_spread_narrow_threshold) :=
    not_le.mpr (lt_of_lt_of_le hn h12)
  obtain ⟨pm, ps, pst, pds, km, ks, kst, mp, ts⟩ := i
  refine ⟨by simp [calculate_weight], ⟨?_, ?_⟩, ?_⟩
  · cases pst <;> simp only [calculate_weight, if_true, if_false, Bool.false_eq_true]
    · exact le_max_left 0 _
    · exact le_refl 0
  · cases pst <;> simp only [calculate_weight, if_true, if_false, Bool.false_eq_true]
    · exact max_le (by norm_num) (min_le_left _ _)
    · norm_num
  · cases pst <;> simp only [calculate_weight, if_true, if_false, Bool.false_eq_true]
    · refine max_le_max (le_refl 0) (min_le_min (le_refl _) ?_)
      simp only [h1, h2, false_and, if_false]
      split_ifs <;> linarith
    · exact le_refl 0

/-- Witness for C6 at the default configuration, spreads 0.03 ≤ 0.07 beyond
the 0.02 narrow threshold. -/
theorem weight_stale_bounds_monotone_witness :
    calculate_weight defaultFairConfig { polyOnlyInputs with poly_stale := true } = 0
    ∧ (0 ≤ calculate_weight defaultFairConfig polyOnlyInputs
        ∧ calculate_weight defaultFairConfig polyOnlyInputs ≤ 95/100)
    ∧ calculate_weight defaultFairConfig { polyOnlyInputs with poly_spread := some (7/100) }
        ≤ calculate_weight defaultFairConfig { polyOnlyInputs with poly_spread := some (3/100) } :=
  weight_stale_bounds_monotone defaultFairConfig polyOnlyInputs (3/100) (7/100)
    (by norm_num [defaultFairConfig]) (by norm_num [defaultFairConfig]) (by norm_num)

lemma detect_shock_const_mid (cfg : FairConfig) (m : ℚ) (st : EwmaState)
    (h : st.poly_mid_ewma = some m) :
    (detect_shock cfg (some m) st).2.poly_mid_ewma = some m := by
  obtain ⟨me, ve⟩ := st
  simp only at h
  subst h
  simp only [detect_shock, Option.some.injEq]
  ring

lemma detect_shock_const_out (cfg : FairConfig) (m : ℚ) (st : EwmaState)
    (hθ : 0 < cfg.shock_score_threshold) (h : st.poly_mid_ewma = some m) :
    (detect_shock cfg (some m) st).1 = (0, false) := by
  obtain ⟨me, ve⟩ := st
  simp only at h
  subst h
  simp only [detect_shock, sub_self, abs_zero, zero_div, Prod.mk.injEq]
  exact ⟨trivial, by simp only [ge_iff_le, decide_eq_false_iff_not]; exact not_le.mpr hθ⟩

lemma detect_shock_iter_mid (cfg : FairConfig) (m : ℚ) :
    ∀ n : ℕ, (detect_shock_iter cfg m (n + 1)).poly_mid_ewma = some m
  | 0 => by simp [detect_shock_iter, detect_shock]
  | n + 1 =>
    detect_shock_const_mid cfg m (detect_shock_iter cfg m (n + 1))
      (detect_shock_iter_mid cfg m n)

/-- Claim C7. The first observation of a venue-B mid seeds the EWMA state
(mid := the observation, volatility := 0.01) and returns shock score 0,
flag false; and with a positive configured threshold, every later
observation of a constant mid sequence also returns score 0 and never
raises the flag. -/
theorem shock_seed_and_constant (cfg : FairConfig) (m : ℚ) (v0 : Option ℚ) (n : ℕ)
    (hθ : 0 < cfg.shock_score_threshold) :
    (detect_shock cfg (some m) ⟨none, v0⟩).1 = (0, false)
    ∧ (detect_shock cfg (some m) ⟨none, v0⟩).2 = ⟨some m, some (1/100)⟩
    ∧ (detect_shock cfg (some m) (detect_shock_iter cfg m (n + 1))).1 = (0, false) :=
  ⟨by simp [detect_shock], by simp [detect_shock],
   detect_shock_const_out cfg m _ hθ (detect_shock_iter_mid cfg m n)⟩

/-- Witness for C7 at the default configuration (threshold 3), constant
mid 0.5, third observation. -/
theorem shock_seed_and_constant_witness :
    (detect_shock defaultFairConfig (some (1/2)) ⟨none, none⟩).1 = (0, false)
    ∧ (detect_shock defaultFairConfig (some (1/2)) ⟨none, none⟩).2 = ⟨some (1/2), some (1/100)⟩
    ∧ (detect_shock defaultFairConfig (some (1/2))
        (detect_shock_iter defaultFairConfig (1/2) (1 + 1))).1 = (0, false) :=
  shock_seed_and_constant defaultFairConfig (1/2) none 1 (by norm_num [defaultFairConfig])

/-- Claim C8. `check_fill_rate` first evicts, for the market, every recorded
fill stamped at or before 60 s before the call time, then appends the new
fill and sums the remaining window: an evicted fill is gone from the stored
list, every stored entry is strictly inside the trailing 60 s window, the
summed total is the surviving window total plus the new fill, and a
violation (and only a violation) carries the 120 s pause duration. -/
theorem fill_rate_window (cfg : RiskConfig) (fills : List (ℤ × ℚ)) (now_ms : ℤ) (x : ℚ)
    (p : ℤ × ℚ) (hp : p ∈ fills) (hold : p.1 ≤ now_ms - 60000) :
    p ∉ (check_fill_rate cfg fills now_ms x).2
    ∧ ((check_fill_rate cfg fills now_ms x).2.all fun q => now_ms - 60000 < q.1) = true
    ∧ ((check_fill_rate cfg fills now_ms x).2.map Prod.snd).sum
        = (((fills.filter fun q => now_ms - 60000 < q.1).map Prod.snd).sum) + x
    ∧ (check_fill_rate cfg fills now_ms x).1.pause_seconds
        = (if (check_fill_rate cfg fills now_ms x).1.is_ok = true then 0 else 120) := by
  have h2 : (check_fill_rate cfg fills now_ms x).2
      = (fills.filter fun q => now_ms - 60000 < q.1) ++ [(now_ms, x)] := by
    simp only [check_fill_rate]
    split_ifs <;> rfl
  refine ⟨?_, ?_, ?_, ?_⟩
  · rw [h2]
    intro hmem
    simp only [List.mem_append, List.mem_filter, List.mem_singleton,
      decide_eq_true_eq] at hmem
    rcases hmem with ⟨_, hgt⟩ | rfl
    · omega
    · simp only at hold
      omega
  · rw [h2]
    simp only [List.all_eq_true, List.mem_append, List.mem_filter, List.mem_singleton,
      decide_eq_true_eq]
    rintro q (⟨_, hgt⟩ | rfl)
    · exact hgt
    · omega
  · rw [h2]
    simp
  · simp only [check_fill_rate]
    split_ifs <;> simp_all

/-- Witness for C8: a fill stamped at 0 is evicted by a call at
t=100000 ms; the window retains the fill at 70000 ms plus the new fill. -/
theorem fill_rate_window_witness :
    (0, (5 : ℚ)) ∉ (check_fill_rate demoRiskConfig [(0, 5), (70000, 6)] 100000 21).2
    ∧ ((check_fill_rate demoRiskConfig [(0, 5), (70000, 6)] 100000 21).2.all
        fun q => (100000 : ℤ) - 60000 < q.1) = true
    ∧ ((check_fill_rate demoRiskConfig [(0, 5), (70000, 6)] 100000 21).2.map Prod.snd).sum
        = ((([((0 : ℤ), (5 : ℚ)), (70000, 6)].filter
            fun q => (100000 : ℤ) - 60000 < q.1).map Prod.snd).sum) + 21
    ∧ (check_fill_rate demoRiskConfig [(0, 5), (70000, 6)] 100000 21).1.pause_seconds
        = (if (check_fill_rate demoRiskConfig [(0, 5), (70000, 6)] 100000 21).1.is_ok = true
            then 0 else 120) :=
  fill_rate_window demoRiskConfig [(0, 5), (70000, 6)] 100000 21 (0, 5)
    (by simp) (by norm_num)

lemma half_spread_at_half : calculate_half_spread demoQuotingConfig halfFairOutput "PREMATCH" = 7/50 := by
  norm_num [calculate_half_spread, demoQuotingConfig, halfFairOutput, fee_buffer_probability,
    kalshi_fee_cents, prob_to_ticks, pyround, pytrunc, prematch_ne_inplay]

lemma ticks_at_bid : prob_to_ticks (halfFairOutput.fair - 7/50) = 36 := by
  norm_num [halfFairOutput, prob_to_ticks, pyround]

lemma ticks_at_ask : prob_to_ticks (halfFairOutput.fair + 7/50) = 64 := by
  norm_num [halfFairOutput, prob_to_ticks, pyround]

lemma ticks_at_one : prob_to_ticks ((1 : ℚ)/100) = 1 := by
  norm_num [prob_to_ticks, pyround]

lemma truthy_one_tick : truthy (some ((1 : ℚ)/100)) = true := by
  norm_num [truthy]

lemma size_at_one_none : calculate_size demoQuotingConfig 1 none = 25 := by
  norm_num [calculate_size, demoQuotingConfig, truthyInt, pytrunc]

lemma size_at_sixtyfour_none : calculate_size demoQuotingConfig 64 none = 4 := by
  norm_num [calculate_size, demoQuotingConfig, truthyInt, pytrunc]

/-- Claim C1, failing input. With a fresh snapshot whose resting Kalshi ask
sits at one tick (price 0.01, inside its documented range), fair price 0.50
and no shock, `calculate_quotes` returns a bid whose price *equals* the
resting ask's ticks: the `max(1, best_ask_ticks - 1)` clamp cannot go below
one tick, so the returned bid is not strictly below the resting ask and the
post-only invariant — stated by the spec and by the code's own
"Post-only guards (don't cross the book)" comment — is violated. -/
theorem post_only_violation_at_one_tick_ask :
    ((calculate_quotes demoQuotingConfig halfFairOutput oneTickAskSnapshot "PREMATCH"
        none none).bid).map Quote.price = some 1
    ∧ prob_to_ticks (oneTickAskSnapshot.kalshi_best_ask_price.getD 0) = 1 := by
  have h1 : halfFairOutput.is_shocked = false := rfl
  have h2 : oneTickAskSnapshot.kalshi_stale = false := rfl
  have h3 : oneTickAskSnapshot.kalshi_best_ask_price = some (1/100) := rfl
  have h4 : oneTickAskSnapshot.kalshi_best_bid_price = none := rfl
  have h5 : oneTickAskSnapshot.kalshi_best_bid_size = none := rfl
  have h6 : oneTickAskSnapshot.kalshi_best_ask_size = none := rfl
  refine ⟨?_, by rw [h3]; simpa using ticks_at_one⟩
  simp only [calculate_quotes, h1, h2, h3, h4, h5, h6, half_spread_at_half,
    ticks_at_bid, ticks_at_ask, Option.getD_some, ticks_at_one, truthy_one_tick,
    Bool.false_eq_true, if_false, false_and, truthy]
  norm_num [size_at_one_none, size_at_sixtyfour_none]

/-- Claim C2, failing input. `_calculate_fair` clamps only the weighted-average
branch: with a Polymarket-only input whose mid is 1.0 (top of its documented
0.0–1.0 range), fresh data and nonzero weight, the fused probability
returned by `calculate` is exactly 1, outside the [0.01, 0.99] range the
claim (and the `FairPriceOutput.fair` docstring) promise for every input. -/
theorem fair_unclamped_single_source :
    (fair_calculate defaultFairConfig polyOnlyInputs ⟨none, none⟩).1.fair = 1
    ∧ ¬ ((fair_calculate defaultFairConfig polyOnlyInputs ⟨none, none⟩).1.fair ≤ 99/100) := by
  have h : (fair_calculate defaultFairConfig polyOnlyInputs ⟨none, none⟩).1.fair = 1 := by
    norm_num [fair_calculate, calculate_weight, calculate_fair, polyOnlyInputs,
      defaultFairConfig, prematch_ne_inplay]
  exact ⟨h, by rw [h]; norm_num⟩

/-- The venue-B mid observations of run 1: event A alone, mids 0.5 then 0.6. -/
def interferenceBase : List (String × ℚ) := [("A", 1/2), ("A", 3/5)]

/-- The venue-B mid observations of run 2: the same two observations for
event A with one observation for event B interleaved. -/
def interferenceInterleaved : List (String × ℚ) := [("A", 1/2), ("B", 9/10), ("A", 3/5)]

/-- Claim C3, failing input. `SoccerMarketMakerStrategy.__init__` creates a
single `FairPriceCalculator`, so its EWMA pair is shared by every tracked
event rather than owned per event. Two runs in which event A sees the
identical mid sequence 0.5, 0.6 — but in the second an event-B evaluation
at mid 0.9 is interleaved — give event A different shock results (score
100/19 with the flag raised versus score 200/167 with the flag clear):
evaluating another event changes an event's shock score and flag, refuting
the claimed per-event noninterference. -/
theorem shared_ewma_cross_event_interference :
    mids_for "A" interferenceBase = mids_for "A" interferenceInterleaved
    ∧ shocks_for "A" (run_shared_ewma defaultFairConfig interferenceBase ⟨none, none⟩)
      ≠ shocks_for "A" (run_shared_ewma defaultFairConfig interferenceInterleaved ⟨none, none⟩) := by
  have hAA : (("A" : String) = "A") = True := by simp
  have hBA : (("B" : String) = "A") = False := by decide
  have habs1 : |(3/5 : ℚ) - 1/2| = 1/10 := by
    rw [show (3/5 : ℚ) - 1/2 = 1/10 by norm_num]
    rw [abs_of_pos (by norm_num)]
  have habs2 : |(9/10 : ℚ) - 1/2| = 2/5 := by
    rw [show (9/10 : ℚ) - 1/2 = 2/5 by norm_num]
    rw [abs_of_pos (by norm_num)]
  have habs3 : |(3/5 : ℚ) - 27/50| = 3/50 := by
    rw [show (3/5 : ℚ) - 27/50 = 3/50 by norm_num]
    rw [abs_of_pos (by norm_num)]
  have e1 : detect_shock defaultFairConfig (some (1/2)) ⟨none, none⟩
      = ((0, false), ⟨some (1/2), some (1/100)⟩) := by
    simp [detect_shock]
  have habs1a : |(1/10 : ℚ)| = 1/10 := abs_of_pos (by norm_num)
  have habs2a : |(2/5 : ℚ)| = 2/5 := abs_of_pos (by norm_num)
  have habs3a : |(3/50 : ℚ)| = 3/50 := abs_of_pos (by norm_num)
  have hm1 : ((1 : ℚ)/100) ⊔ (19/1000) = 19/1000 := max_eq_right (by norm_num)
  have hm2 : ((1 : ℚ)/100) ⊔ (49/1000) = 49/1000 := max_eq_right (by norm_num)
  have hm3 : ((1 : ℚ)/100) ⊔ (501/10000) = 501/10000 := max_eq_right (by norm_num)
  have e2 : detect_shock defaultFairConfig (some (3/5)) ⟨some (1/2), some (1/100)⟩
      = ((100/19, true), ⟨some (51/100), some (19/1000)⟩) := by
    norm_num [detect_shock, ewma_alpha, defaultFairConfig, habs1, habs1a, hm1]
  have e3 : detect_shock defaultFairConfig (some (9/10)) ⟨some (1/2), some (1/100)⟩
      = ((400/49, true), ⟨some (27/50), some (49/1000)⟩) := by
    norm_num [detect_shock, ewma_alpha, defaultFairConfig, habs2, habs2a, hm2]
  have e4 : detect_shock defaultFairConfig (some (3/5)) ⟨some (27/50), some (49/1000)⟩
      = ((200/167, false), ⟨some (273/500), some (501/10000)⟩) := by
    norm_num [detect_shock, ewma_alpha, defaultFairConfig, habs3, habs3a, hm3]
  constructor
  · simp [mids_for, interferenceBase, interferenceInterleaved, List.filter, hBA]
  · simp only [interferenceBase, interferenceInterleaved, run_shared_ewma, e1, e2, e3, e4,
      shocks_for, List.filter, hAA, hBA]
    norm_num

lemma quote_guard (bt sz lo hi : ℤ) (q : Quote)
    (h : (if bt < lo ∨ bt > hi ∨ sz < 1 then none else some (Quote.mk bt sz)) = some q) :
    1 ≤ q.qty ∧ lo ≤ q.price ∧ q.price ≤ hi := by
  split at h
  · exact absurd h (by simp)
  · cases h
    push_neg at *
    dsimp only
    refine ⟨by omega, by omega, by omega⟩

lemma one_le_calculate_size (cfg : QuotingConfig) (ticks : ℤ) (dep : Option ℤ) :
    1 ≤ calculate_size cfg ticks dep :=
  le_max_left 1 _

/-- Claim C9. The per-side order size is
`max(1, min(trunc(notional cap ÷ price), contracts cap, trunc(depth × ratio)))`
when visible depth is present (the code's inner `max(1, ·)` on the depth term
is absorbed by the outer floor), and `max(1, min(trunc(notional cap ÷ price),
contracts cap))` when it is absent; the size is always floored at 1; and
`calculate_quotes` omits a side whenever its size is below 1 — every quote it
does return has size at least 1 (and a price inside the valid tick band). -/
theorem size_formula_and_min_one (cfg : QuotingConfig) (ticks d : ℤ) (dep : Option ℤ)
    (fo : FairPriceOutput) (snap : MarketSnapshot) (phase : String)
    (cb ca : Option ℤ) (hd : d ≠ 0) :
    calculate_size cfg ticks (some d)
      = max 1 (min (min (pytrunc (cfg.max_order_notional / max (1/100) ((ticks : ℚ)/100)))
          cfg.max_contracts_per_order) (pytrunc ((d : ℚ) * cfg.max_size_vs_depth_ratio)))
    ∧ calculate_size cfg ticks none
      = max 1 (min (pytrunc (cfg.max_order_notional / max (1/100) ((ticks : ℚ)/100)))
          cfg.max_contracts_per_order)
    ∧ 1 ≤ calculate_size cfg ticks dep
    ∧ (∀ q, (calculate_quotes cfg fo snap phase cb ca).bid = some q → 1 ≤ q.qty)
    ∧ (∀ q, (calculate_quotes cfg fo snap phase cb ca).ask = some q → 1 ≤ q.qty) := by
  refine ⟨?_, ?_, one_le_calculate_size cfg ticks dep, ?_, ?_⟩
  · simp only [calculate_size, truthyInt, Option.getD_some]
    rw [if_pos (decide_eq_true hd)]
    exact max_one_min_absorb _ _
  · simp only [calculate_size, truthyInt, Bool.false_eq_true, if_false]
  · intro q hq
    simp only [calculate_quotes] at hq
    split at hq
    · exact absurd hq (by simp)
    · split at hq
      · exact absurd hq (by simp)
      · exact (quote_guard _ _ 1 98 q hq).1
  · intro q hq
    simp only [calculate_quotes] at hq
    split at hq
    · exact absurd hq (by simp)
    · split at hq
      · exact absurd hq (by simp)
      · exact (quote_guard _ _ 2 99 q hq).1

/-- Witness for C9 at the demo configuration, price 36 ticks, depth 7
(depth term `trunc(7 × 0.25) = 1` binds), an arbitrary fair output and
snapshot. -/
theorem size_formula_and_min_one_witness :
    calculate_size demoQuotingConfig 36 (some 7)
      = max 1 (min (min (pytrunc (demoQuotingConfig.max_order_notional
            / max (1/100) ((36 : ℚ)/100)))
          demoQuotingConfig.max_contracts_per_order)
          (pytrunc ((7 : ℚ) * demoQuotingConfig.max_size_vs_depth_ratio)))
    ∧ calculate_size demoQuotingConfig 36 none
      = max 1 (min (pytrunc (demoQuotingConfig.max_order_notional
            / max (1/100) ((36 : ℚ)/100)))
          demoQuotingConfig.max_contracts_per_order)
    ∧ 1 ≤ calculate_size demoQuotingConfig 36 (some 7)
    ∧ (∀ q, (calculate_quotes demoQuotingConfig halfFairOutput oneTickAskSnapshot "PREMATCH"
        none none).bid = some q → 1 ≤ q.qty)
    ∧ (∀ q, (calculate_quotes demoQuotingConfig halfFairOutput oneTickAskSnapshot "PREMATCH"
        none none).ask = some q → 1 ≤ q.qty) :=
  size_formula_and_min_one demoQuotingConfig 36 7 (some 7) halfFairOutput oneTickAskSnapshot
    "PREMATCH" none none (by norm_num)

end Kmm
